import Mathlib

/-
Verification of the Express server wiring in backend/src/index.js:
the prom-client request counter middleware, the route registrations,
the startup bootstrap and the graceful shutdown sequence.
-/

namespace TodoServer

/-- A labeled counter, as kept by the prom-client Counter keyed by the
method label: an association list from label value to count. -/
abbrev Counter := List (String × Nat)

/-- Read the count stored under a label; a label never incremented reads 0. -/
def Counter.get : Counter → String → Nat
  | [], _ => 0
  | (k, v) :: rest, m => if k = m then v else Counter.get rest m

/-- httpRequestCounter.inc with a label value: add 1 to the count under
that label, creating the entry at 1 when absent. -/
def Counter.inc : Counter → String → Counter
  | [], m => [(m, 1)]
  | (k, v) :: rest, m =>
      if k = m then (k, v + 1) :: rest else (k, v) :: Counter.inc rest m

/-- An inbound HTTP request as the middleware and router see it: the
method, the path, and whether the static-file middleware finds a file
for this path (express.static serves and ends the response when it
does, otherwise it passes the request on). -/
structure Req where
  method : String
  path : String
  staticHit : Bool
deriving Repr, DecidableEq

/-- Every function installed on the express app in index.js, middleware
and route handlers alike. -/
inductive Handler where
  | metricsMw
  | metricsEndpoint
  | jsonParser
  | staticFiles
  | getGreeting
  | getItems
  | addItem
  | updateItem
  | deleteItem
deriving Repr, DecidableEq

/-- One registration on the express app: app.use installs a middleware
layer, app.get / app.post / app.put / app.delete install a route layer
guarded by a method and a path pattern. -/
inductive Layer where
  | mw (h : Handler)
  | route (method : String) (pat : String) (h : Handler)
deriving Repr, DecidableEq

/-- Whether the first character list is a prefix of the second. -/
def charsPre : List Char → List Char → Bool
  | [], _ => true
  | _ :: _, [] => false
  | p :: ps, x :: xs => p = x && charsPre ps xs

/-- The JavaScript String startsWith test, as called by the middleware:
does the character sequence of pre lead the character sequence of s. -/
def jsStartsWith (s pre : String) : Bool :=
  charsPre pre.data s.data

/-- Split a character list at every slash, keeping empty segments, the
way both express patterns and request paths decompose. -/
def splitSegs (cur : List Char) : List Char → List (List Char)
  | [] => [cur.reverse]
  | ch :: cs =>
      if ch = '/' then cur.reverse :: splitSegs [] cs
      else splitSegs (ch :: cur) cs

/-- Express path patterns match segment by segment; a pattern segment
written :name captures any one path segment, any other segment must
match literally. -/
def segsMatch : List (List Char) → List (List Char) → Bool
  | [], [] => true
  | p :: ps, x :: xs => (charsPre [':'] p || p = x) && segsMatch ps xs
  | _, _ => false

/-- Whether a route pattern such as /api/items/:id matches a request path. -/
def patMatch (pat path : String) : Bool :=
  segsMatch (splitSegs [] pat.data) (splitSegs [] path.data)

/-- The metrics middleware body (index.js lines 21-28): when the request
path starts with /api, increment the counter labeled with the request
method; otherwise leave the counter alone. Either way call next(). -/
def metricsMiddleware (c : Counter) (req : Req) : Counter :=
  if jsStartsWith req.path "/api" then Counter.inc c req.method else c

/-- The registrations of index.js in source order:
the metrics middleware (lines 21-28), GET /metrics (line 30),
express.json() (line 36), express.static (line 37), then the five API
routes (lines 39-43). -/
def appLayers : List Layer :=
  [ Layer.mw Handler.metricsMw,
    Layer.route "GET" "/metrics" Handler.metricsEndpoint,
    Layer.mw Handler.jsonParser,
    Layer.mw Handler.staticFiles,
    Layer.route "GET" "/api/greeting" Handler.getGreeting,
    Layer.route "GET" "/api/items" Handler.getItems,
    Layer.route "POST" "/api/items" Handler.addItem,
    Layer.route "PUT" "/api/items/:id" Handler.updateItem,
    Layer.route "DELETE" "/api/items/:id" Handler.deleteItem ]

/-- What processing one request did: the counter afterwards, the
handlers invoked in order, and the handler that ended the response
(none when the request fell through every layer). -/
structure PipelineResult where
  counter : Counter
  trace : List Handler
  terminal : Option Handler
deriving Repr, DecidableEq

/-- Walk the registered layers in order, as the express router does:
a middleware layer runs and passes the request on (the metrics
middleware updating the counter, express.static ending the response
when it finds a file), a route layer runs its handler and ends the
response when method and pattern match, and is skipped otherwise. -/
def runPipeline (req : Req) : List Layer → Counter → PipelineResult
  | [], c => ⟨c, [], none⟩
  | Layer.mw Handler.metricsMw :: rest, c =>
      let r := runPipeline req rest (metricsMiddleware c req)
      ⟨r.counter, Handler.metricsMw :: r.trace, r.terminal⟩
  | Layer.mw Handler.staticFiles :: rest, c =>
      if req.staticHit then ⟨c, [Handler.staticFiles], some Handler.staticFiles⟩
      else
        let r := runPipeline req rest c
        ⟨r.counter, Handler.staticFiles :: r.trace, r.terminal⟩
  | Layer.mw h :: rest, c =>
      let r := runPipeline req rest c
      ⟨r.counter, h :: r.trace, r.terminal⟩
  | Layer.route m p h :: rest, c =>
      if req.method = m && patMatch p req.path then ⟨c, [h], some h⟩
      else runPipeline req rest c

/-- The full app applied to one request, starting from counter c. -/
def handleRequest (c : Counter) (req : Req) : PipelineResult :=
  runPipeline req appLayers c

/-- A settled JavaScript promise: resolved with a value or rejected
with an error message. -/
inductive Promise (α : Type) where
  | resolved : α → Promise α
  | rejected : String → Promise α
deriving Repr, DecidableEq

/-- The .catch combinator: a resolved promise passes through, a
rejected one is replaced by the handler result, resolved. -/
def Promise.catchWith {α : Type} : Promise α → (String → α) → Promise α
  | Promise.resolved a, _ => Promise.resolved a
  | Promise.rejected e, f => Promise.resolved (f e)

/-- The .then combinator: run the continuation on a resolved value, a
rejection propagates past the continuation untouched. -/
def Promise.andThen {α β : Type} : Promise α → (α → Promise β) → Promise β
  | Promise.resolved a, f => f a
  | Promise.rejected e, _ => Promise.rejected e

/-- Node process.exit: called with no argument it exits with code 0,
the default value of process.exitCode, which this program never sets. -/
def processExit (code : Option Nat) : Nat :=
  code.getD 0

/-- The observable end state of the bootstrap at the bottom of
index.js: either the HTTP listener is bound on a port (with the log
line printed by the listen callback), or the process has exited with a
code (with the error log written by console.error). -/
inductive BootOutcome where
  | listening (port : Nat) (log : List String)
  | exited (code : Nat) (errLog : List String)
deriving Repr, DecidableEq

/-- The bootstrap (index.js lines 45-52): db.init() is awaited; its
resolution runs app.listen(3000, ...), its rejection logs the error
and calls process.exit(1). Nothing retries and nothing else can bind
the listener. -/
def bootstrap : Promise Unit → BootOutcome
  | Promise.resolved _ => BootOutcome.listening 3000 ["Listening on port 3000"]
  | Promise.rejected e => BootOutcome.exited 1 [e]

/-- gracefulShutdown (index.js lines 54-58): db.teardown() with a
.catch that swallows any error, then a .then that calls process.exit()
with no argument. The result is the exit code the process ends with,
as a promise because the chain itself could in principle reject. -/
def gracefulShutdown (teardown : Promise Unit) : Promise Nat :=
  Promise.andThen (Promise.catchWith teardown (fun _ => ()))
    (fun _ => Promise.resolved (processExit none))

/-- The process.on registrations of index.js lines 60-62, in order:
each of the three signals is wired to the same gracefulShutdown
function. -/
def signalRegistrations : List (String × (Promise Unit → Promise Nat)) :=
  [ ("SIGINT", gracefulShutdown),
    ("SIGTERM", gracefulShutdown),
    ("SIGUSR2", gracefulShutdown) ]

/-- Delivering a signal runs its registered handler on the pending
teardown outcome; a signal with no registered handler does nothing
here (Node default behavior applies). -/
def handleSignal (sig : String) (teardown : Promise Unit) : Option (Promise Nat) :=
  (signalRegistrations.lookup sig).map (fun h => h teardown)

/-- The prom-client registry as the /metrics handler consumes it: its
exposition content type and the rendered text of each registered
collector at the moment of the request. register.metrics() joins the
per-collector renderings into the exposition body. -/
structure MetricsRegistry where
  contentType : String
  collectors : List String
deriving Repr, DecidableEq

/-- register.metrics(): the exposition text of all registered
collectors at this moment. -/
def MetricsRegistry.metricsText (r : MetricsRegistry) : String :=
  String.intercalate "\n\n" r.collectors

/-- The response a handler writes: headers set and the body passed to
res.end. -/
structure Response where
  headers : List (String × String)
  body : String
deriving Repr, DecidableEq

/-- The GET /metrics handler (index.js lines 30-33): set Content-Type
to register.contentType and end the response with the text of
register.metrics(). -/
def metricsEndpointHandler (reg : MetricsRegistry) : Response :=
  { headers := [("Content-Type", reg.contentType)],
    body := reg.metricsText }

/-- The method and pattern pairs of the route layers among the
registrations, in registration order. -/
def registeredRoutes (layers : List Layer) : List (String × String × Handler) :=
  layers.filterMap (fun l =>
    match l with
    | Layer.route m p h => some (m, p, h)
    | Layer.mw _ => none)

/-- The five handlers that serve API routes. -/
def apiHandlers : List Handler :=
  [ Handler.getGreeting, Handler.getItems, Handler.addItem,
    Handler.updateItem, Handler.deleteItem ]

theorem Counter.get_inc (c : Counter) (m m' : String) :
    Counter.get (Counter.inc c m) m' = Counter.get c m' + (if m = m' then 1 else 0) := by
  induction c with
  | nil =>
      by_cases h : m = m' <;> simp [Counter.inc, Counter.get, h]
  | cons kv rest ih =>
      obtain ⟨k, v⟩ := kv
      by_cases hk : k = m
      · subst hk
        by_cases h2 : k = m' <;> simp [Counter.inc, Counter.get, h2]
      · by_cases h2 : k = m'
        · subst h2
          have hm : ¬ (m = k) := fun hh => hk hh.symm
          simp [Counter.inc, Counter.get, hk, hm]
        · simp [Counter.inc, Counter.get, hk, h2, ih]

theorem counter_untouched (req : Req) (layers : List Layer) (c : Counter)
    (hnm : Layer.mw Handler.metricsMw ∉ layers) :
    (runPipeline req layers c).counter = c := by
  induction layers generalizing c with
  | nil => simp [runPipeline]
  | cons l rest ih =>
      have hl : l ≠ Layer.mw Handler.metricsMw := by
        intro he; exact hnm (he ▸ List.mem_cons_self l rest)
      have hrest : Layer.mw Handler.metricsMw ∉ rest := fun hh =>
        hnm (List.mem_cons_of_mem l hh)
      cases l with
      | mw h =>
          cases h with
          | metricsMw => exact absurd rfl hl
          | staticFiles =>
              by_cases hs : req.staticHit
              · simp [runPipeline, hs]
              · simpa [runPipeline, hs] using ih c hrest
          | metricsEndpoint => simpa [runPipeline] using ih c hrest
          | jsonParser => simpa [runPipeline] using ih c hrest
          | getGreeting => simpa [runPipeline] using ih c hrest
          | getItems => simpa [runPipeline] using ih c hrest
          | addItem => simpa [runPipeline] using ih c hrest
          | updateItem => simpa [runPipeline] using ih c hrest
          | deleteItem => simpa [runPipeline] using ih c hrest
      | route m p h =>
          by_cases hm : (req.method = m && patMatch p req.path) = true
          · simp [runPipeline, hm]
          · simpa [runPipeline, hm] using ih c hrest

theorem handleRequest_counter (c : Counter) (req : Req) :
    (handleRequest c req).counter = metricsMiddleware c req := by
  have hnm : Layer.mw Handler.metricsMw ∉ appLayers.tail := by decide
  exact counter_untouched req appLayers.tail (metricsMiddleware c req) hnm

theorem handleRequest_trace_head (c : Counter) (req : Req) :
    (handleRequest c req).trace.head? = some Handler.metricsMw := rfl

theorem api_trace_shape (c : Counter) (req : Req) (h : Handler)
    (hm : h ∈ apiHandlers) (ht : (handleRequest c req).terminal = some h) :
    (handleRequest c req).trace
      = [Handler.metricsMw, Handler.jsonParser, Handler.staticFiles, h] := by
  simp only [handleRequest, appLayers, runPipeline] at ht ⊢
  split_ifs at ht ⊢ <;> simp_all [apiHandlers] <;>
    rcases hm with rfl | rfl | rfl | rfl | rfl <;> simp_all

theorem get_le_handleRequest (c : Counter) (req : Req) (m : String) :
    Counter.get c m ≤ Counter.get (handleRequest c req).counter m := by
  rw [handleRequest_counter]
  unfold metricsMiddleware
  by_cases hsw : jsStartsWith req.path "/api" = true <;>
    simp [hsw, Counter.get_inc]

theorem handleRequest_get (c : Counter) (req : Req) (m : String) :
    Counter.get (handleRequest c req).counter m
      = Counter.get c m
        + (if jsStartsWith req.path "/api" = true ∧ req.method = m then 1 else 0) := by
  rw [handleRequest_counter]
  unfold metricsMiddleware
  by_cases hsw : jsStartsWith req.path "/api" = true <;>
    simp [hsw, Counter.get_inc]

/-- C1: processing any request increments the method-labeled counter by
exactly 1 when the request path starts with /api, and leaves every
count unchanged otherwise; counts under labels other than the request
method are never touched. The increment is the effect of the metrics
middleware alone, so it happens whatever the downstream routing does. -/
theorem claim1_api_counter (c : Counter) (req : Req) (m : String) :
    Counter.get (handleRequest c req).counter m
      = Counter.get c m
        + (if jsStartsWith req.path "/api" = true ∧ req.method = m then 1 else 0) :=
  handleRequest_get c req m

/-- C2: awaiting db.init() and resolving binds the listener on port
3000 and reaches the LISTENING state; rejecting logs the error and
exits with code 1, a non-zero code, and no rejection can ever reach a
listening state. -/
theorem claim2_bootstrap :
    bootstrap (Promise.resolved ()) = BootOutcome.listening 3000 ["Listening on port 3000"]
    ∧ (∀ e, bootstrap (Promise.rejected e) = BootOutcome.exited 1 [e])
    ∧ (∀ e port log, bootstrap (Promise.rejected e) ≠ BootOutcome.listening port log)
    ∧ (∀ e, ∃ code errLog,
        bootstrap (Promise.rejected e) = BootOutcome.exited code errLog ∧ code ≠ 0) :=
  ⟨rfl, fun _ => rfl, fun _ _ _ h => BootOutcome.noConfusion h,
   fun e => ⟨1, [e], rfl, one_ne_zero⟩⟩

/-- C2 witness: a concrete rejected init resolves to a logged non-zero
exit. -/
theorem claim2_bootstrap_witness :
    bootstrap (Promise.rejected "ECONNREFUSED") = BootOutcome.exited 1 ["ECONNREFUSED"] :=
  claim2_bootstrap.2.1 "ECONNREFUSED"

/-- C3: the shutdown chain swallows any teardown rejection through its
catch and reaches process exit through its then; for every teardown
outcome the chain settles resolved, never rejected, so a teardown
failure cannot prevent the process exit. -/
theorem claim3_teardown_swallowed :
    (∀ e, gracefulShutdown (Promise.rejected e) = Promise.resolved (processExit none))
    ∧ gracefulShutdown (Promise.resolved ()) = Promise.resolved (processExit none)
    ∧ (∀ t : Promise Unit, ∀ e, gracefulShutdown t ≠ Promise.rejected e) :=
  ⟨fun _ => rfl, rfl, fun t e h => by cases t <;> exact Promise.noConfusion h⟩

/-- C3 witness: a concretely failing teardown still ends in the exit
call. -/
theorem claim3_teardown_swallowed_witness :
    gracefulShutdown (Promise.rejected "connection lost") = Promise.resolved (processExit none) :=
  claim3_teardown_swallowed.1 "connection lost"

/-- C4: the three registered termination signals are SIGINT, SIGTERM
and SIGUSR2, each wired to gracefulShutdown, so delivering any of the
three to any pending teardown outcome produces one identical
behavior. -/
theorem claim4_signals_identical :
    signalRegistrations.lookup "SIGINT" = some gracefulShutdown
    ∧ signalRegistrations.lookup "SIGTERM" = some gracefulShutdown
    ∧ signalRegistrations.lookup "SIGUSR2" = some gracefulShutdown
    ∧ (∀ t : Promise Unit,
        handleSignal "SIGINT" t = some (gracefulShutdown t)
        ∧ handleSignal "SIGTERM" t = handleSignal "SIGINT" t
        ∧ handleSignal "SIGUSR2" t = handleSignal "SIGINT" t) :=
  ⟨rfl, rfl, rfl, fun _ => ⟨rfl, rfl, rfl⟩⟩

/-- C5: a GET /metrics request is dispatched to the metrics endpoint
handler (whether or not a static file would match the path), and that
handler answers with Content-Type set to the registry exposition
content type and a body that is exactly the registry rendering of all
registered collectors at that moment. -/
theorem claim5_metrics_response (reg : MetricsRegistry) (c : Counter) :
    (handleRequest c ⟨"GET", "/metrics", false⟩).terminal = some Handler.metricsEndpoint
    ∧ (handleRequest c ⟨"GET", "/metrics", true⟩).terminal = some Handler.metricsEndpoint
    ∧ (metricsEndpointHandler reg).headers = [("Content-Type", reg.contentType)]
    ∧ (metricsEndpointHandler reg).body = reg.metricsText :=
  ⟨rfl, rfl, rfl, rfl⟩

/-- C6: the route layers registered on the app are exactly GET
/metrics, GET /api/greeting, GET /api/items, POST /api/items, PUT
/api/items/:id and DELETE /api/items/:id in that order, the static
middleware is installed, and each of the six endpoints dispatches to
its own handler while a non-API path with a file behind it is served
statically. -/
theorem claim6_http_surface (c : Counter) :
    registeredRoutes appLayers
      = [ ("GET", "/metrics", Handler.metricsEndpoint),
          ("GET", "/api/greeting", Handler.getGreeting),
          ("GET", "/api/items", Handler.getItems),
          ("POST", "/api/items", Handler.addItem),
          ("PUT", "/api/items/:id", Handler.updateItem),
          ("DELETE", "/api/items/:id", Handler.deleteItem) ]
    ∧ Layer.mw Handler.staticFiles ∈ appLayers
    ∧ (handleRequest c ⟨"GET", "/api/greeting", false⟩).terminal = some Handler.getGreeting
    ∧ (handleRequest c ⟨"GET", "/api/items", false⟩).terminal = some Handler.getItems
    ∧ (handleRequest c ⟨"POST", "/api/items", false⟩).terminal = some Handler.addItem
    ∧ (handleRequest c ⟨"PUT", "/api/items/42", false⟩).terminal = some Handler.updateItem
    ∧ (handleRequest c ⟨"DELETE", "/api/items/42", false⟩).terminal = some Handler.deleteItem
    ∧ (handleRequest c ⟨"GET", "/metrics", false⟩).terminal = some Handler.metricsEndpoint
    ∧ (handleRequest c ⟨"GET", "/index.html", true⟩).terminal = some Handler.staticFiles :=
  ⟨rfl, by decide, rfl, rfl, rfl, rfl, rfl, rfl, rfl⟩

/-- C7 counterexample: a GET /metrics request is dispatched to the
metrics endpoint route, yet the JSON body parser never runs on it,
because the /metrics route is registered before express.json(); so not
every request goes metrics middleware, then JSON parser, then
dispatch. -/
theorem claim7_counterexample :
    (handleRequest [] ⟨"GET", "/metrics", false⟩).terminal = some Handler.metricsEndpoint
    ∧ Handler.jsonParser ∉ (handleRequest [] ⟨"GET", "/metrics", false⟩).trace := by
  decide

/-- C7 amended: every request hits the metrics middleware first and
nothing later alters the counter, and every request that an API route
handler ends has passed, in order, the metrics middleware, the JSON
body parser and the static middleware; only the GET /metrics route,
registered before the parser, is dispatched without the parser. -/
theorem claim7_amended_order (c : Counter) (req : Req) :
    (handleRequest c req).trace.head? = some Handler.metricsMw
    ∧ (handleRequest c req).counter = metricsMiddleware c req
    ∧ (∀ h : Handler, h ∈ apiHandlers → (handleRequest c req).terminal = some h →
        (handleRequest c req).trace
          = [Handler.metricsMw, Handler.jsonParser, Handler.staticFiles, h]) :=
  ⟨handleRequest_trace_head c req, handleRequest_counter c req,
   fun h hm ht => api_trace_shape c req h hm ht⟩

/-- C7 amended witness: a GET /api/items request runs exactly the
metrics middleware, the JSON parser, the static middleware and then
its handler. -/
theorem claim7_amended_order_witness :
    (handleRequest [] ⟨"GET", "/api/items", false⟩).trace
      = [Handler.metricsMw, Handler.jsonParser, Handler.staticFiles, Handler.getItems] :=
  (claim7_amended_order [] ⟨"GET", "/api/items", false⟩).2.2
    Handler.getItems (by decide) (by decide)

/-- C8: the per-method counts are monotonically non-decreasing across
request processing, the only operation of the program that writes the
counter; no request ever lowers or resets any count. -/
theorem claim8_counter_monotone (c : Counter) (req : Req) (m : String) :
    Counter.get c m ≤ Counter.get (handleRequest c req).counter m :=
  get_le_handleRequest c req m

/-- C9: the middleware gate is a plain string test on the path
characters: a PATCH to /apifoo and a PATCH to /api/items both
increment the PATCH count by 1 although neither is served by any
route, and in general a leading /api alone forces the increment. -/
theorem claim9_startswith_gate (c : Counter) :
    Counter.get (handleRequest c ⟨"PATCH", "/apifoo", false⟩).counter "PATCH"
      = Counter.get c "PATCH" + 1
    ∧ (handleRequest c ⟨"PATCH", "/apifoo", false⟩).terminal = none
    ∧ Counter.get (handleRequest c ⟨"PATCH", "/api/items", false⟩).counter "PATCH"
      = Counter.get c "PATCH" + 1
    ∧ (handleRequest c ⟨"PATCH", "/api/items", false⟩).terminal = none
    ∧ (∀ req : Req, jsStartsWith req.path "/api" = true →
        Counter.get (handleRequest c req).counter req.method
          = Counter.get c req.method + 1) := by
  have h1 : jsStartsWith "/apifoo" "/api" = true := rfl
  have h2 : jsStartsWith "/api/items" "/api" = true := rfl
  refine ⟨?_, rfl, ?_, rfl, fun req hsw => ?_⟩
  · rw [handleRequest_get]
    simp [h1]
  · rw [handleRequest_get]
    simp [h2]
  · rw [handleRequest_get]
    simp [hsw]

/-- C9 witness: the PATCH /apifoo instance of the general gate, from
the empty counter. -/
theorem claim9_startswith_gate_witness :
    Counter.get (handleRequest [] ⟨"PATCH", "/apifoo", false⟩).counter "PATCH"
      = Counter.get ([] : Counter) "PATCH" + 1 :=
  (claim9_startswith_gate []).2.2.2.2 ⟨"PATCH", "/apifoo", false⟩ rfl

/-- C10: for every teardown outcome the shutdown chain ends in
process.exit() with no argument, which is exit code 0 under the Node
default, and each of the three handled signals leads to that same
resolved exit code 0 — unlike the startup failure path, which exits
with 1. -/
theorem claim10_exit_code_zero :
    (∀ t : Promise Unit, gracefulShutdown t = Promise.resolved 0)
    ∧ processExit none = 0
    ∧ (∀ t : Promise Unit,
        handleSignal "SIGINT" t = some (Promise.resolved 0)
        ∧ handleSignal "SIGTERM" t = some (Promise.resolved 0)
        ∧ handleSignal "SIGUSR2" t = some (Promise.resolved 0)) :=
  ⟨fun t => by cases t <;> rfl, rfl,
   fun t => by refine ⟨?_, ?_, ?_⟩ <;> cases t <;> rfl⟩

end TodoServer
